import Mathlib

/-!
Verification of the Himalayan Expedition Data Explorer core
(`src/app.py`, `src/ideal.py`, `src/test.py`).

Tables are shallowly embedded: a pandas `DataFrame` read with `dtype=str`
becomes a list of column names together with rows of
`(column, Option String)` cells, where `none` stands for the native
absence value NaN.  Pandas boolean-mask selection
(`df[df[c].op(...)]`) is embedded as computing the boolean mask from the
column and zipping it against the rows, exactly as pandas does, and then
proved equal to a plain row filter.
-/

/-- A row of a string-typed pandas DataFrame: cells keyed by column name,
`none` is NaN. -/
abbrev Row := List (String × Option String)

/-- A pandas DataFrame read with `dtype=str`: ordered column names plus rows. -/
structure DataFrame where
  cols : List String
  rows : List Row
deriving Repr, DecidableEq

/-- Cell access `row[c]`: the first cell keyed `c`, NaN (`none`) when the
key is absent. -/
def getCell (r : Row) (c : String) : Option String :=
  match r.lookup c with
  | some v => v
  | none => none

/-- Column access `df[c]` as a series of optional strings. -/
def DataFrame.col (df : DataFrame) (c : String) : List (Option String) :=
  df.rows.map (fun r => getCell r c)

/-- Pandas boolean-mask row selection `df[mask]`. -/
def applyMask (df : DataFrame) (mask : List Bool) : DataFrame :=
  { df with rows := ((df.rows.zip mask).filter (fun rb => rb.2)).map (fun rb => rb.1) }

/-- Plain row filter, the specification-level view of mask selection. -/
def filterRows (df : DataFrame) (p : Row → Bool) : DataFrame :=
  { df with rows := df.rows.filter p }

theorem zip_map_filter {α : Type} (f : α → Bool) (l : List α) :
    (((l.zip (l.map f)).filter (fun ab => ab.2)).map (fun ab => ab.1)) = l.filter f := by
  induction l with
  | nil => rfl
  | cons a t ih =>
      simp only [List.zip] at ih ⊢
      by_cases h : f a = true
      · simp [List.filter, h, ih]
      · simp only [Bool.not_eq_true] at h
        simp [List.filter, h, ih]

/-- `df[df[c].map g]` is the row filter by `g` of the cell at `c`. -/
theorem applyMask_col (df : DataFrame) (c : String) (g : Option String → Bool) :
    applyMask df ((df.col c).map g) = filterRows df (fun r => g (getCell r c)) := by
  unfold applyMask filterRows DataFrame.col
  rw [List.map_map]
  exact congrArg _ (zip_map_filter _ df.rows)

/-! ## Schema Registry (`SCHEMA` in `app.py`) -/

def SCHEMA_exped : List String :=
  ["expid", "peakid", "year", "leaders", "nation", "host", "sponsor", "highpoint", "hdeaths"]

def SCHEMA_members : List String :=
  ["expid", "fname", "lname", "status", "death", "deathtype"]

def SCHEMA_peaks : List String :=
  ["peakid", "pkname", "pkname2", "location", "heightm"]

def SCHEMA_refer : List String :=
  ["expid", "refid", "ryear", "rauthor", "rtitle", "rpublisher"]

/-! ## Loader/Normalizer (`load_data` in `app.py`)

A backing CSV file is embedded by what `pd.read_csv` returns on it under
each of the two encodings `load_data` can attempt: a parsed DataFrame, a
`UnicodeDecodeError`, or any other exception (missing file, parser
error, ...) carrying its message. -/

/-- Outcome of one `pd.read_csv(path, dtype=str, encoding=...)` call. -/
inductive ReadResult
  | ok (df : DataFrame)
  | decodeError
  | otherError (msg : String)
deriving Repr, DecidableEq

/-- A table's backing source, described by the outcome of reading it with
each encoding. -/
structure CsvSource where
  readUtf8 : ReadResult
  readLatin1 : ReadResult
deriving Repr, DecidableEq

/-- The inner `try`/`except UnicodeDecodeError` of `load_data`
(`app.py` lines 27-31): read as UTF-8, and only on a decode failure
retry as Latin-1.  Any exception left over reaches the outer handler. -/
def tryReadWithFallback (src : CsvSource) : Except String DataFrame :=
  match src.readUtf8 with
  | .ok df => .ok df
  | .decodeError =>
      match src.readLatin1 with
      | .ok df => .ok df
      | .decodeError => .error "UnicodeDecodeError"
      | .otherError m => .error m
  | .otherError m => .error m

/-- `app.py` lines 34-36: `for col in SCHEMA[file]: if col not in
df.columns: df[col] = 'N/A'`. -/
def addMissingCols (schema : List String) (df : DataFrame) : DataFrame :=
  let missing := schema.filter (fun c => !(df.cols.contains c))
  { cols := df.cols ++ missing,
    rows := df.rows.map (fun r => r ++ missing.map (fun c => (c, some "N/A"))) }

/-- `df.fillna('N/A')`: every NaN cell becomes the sentinel string. -/
def fillnaDf (df : DataFrame) : DataFrame :=
  { df with rows := df.rows.map (fun r => r.map (fun p => (p.1, some (p.2.getD "N/A")))) }

/-- `pd.DataFrame(columns=SCHEMA[file])`: the schema columns, no rows. -/
def emptyWithCols (schema : List String) : DataFrame :=
  { cols := schema, rows := [] }

/-- `load_data` of `app.py` for one table: read with encoding fallback,
complete the schema, fill NaN; on any other exception report
`"Error loading <file>: <e>"` via `st.error` and substitute an empty
schema-complete table.  Returns the table and the list of emitted error
messages. -/
def load_data_one (name : String) (schema : List String) (src : CsvSource) :
    DataFrame × List String :=
  match tryReadWithFallback src with
  | .ok df => (fillnaDf (addMissingCols schema df), [])
  | .error e => (emptyWithCols schema, ["Error loading " ++ name ++ ": " ++ e])

/-! ## Filter Engine (`main` in `app.py`, lines 78-86) -/

/-- The sidebar filter state: multiselect year list, multiselect nation
list, free-text leader search. -/
structure FilterSpec where
  years : List String
  nations : List String
  leader : String
deriving Repr, DecidableEq

/-- Whether the first character list starts the second. -/
def charsStartWith : List Char → List Char → Bool
  | [], _ => true
  | _ :: _, [] => false
  | a :: as, b :: bs => a == b && charsStartWith as bs

/-- Whether the first character list occurs contiguously inside the
second. -/
def charsSubOf : List Char → List Char → Bool
  | p, [] => p.isEmpty
  | p, b :: bs => charsStartWith p (b :: bs) || charsSubOf p bs

/-- Python `str.lower()` on the character level (the data is ASCII). -/
def lowerChars (cs : List Char) : List Char := cs.map Char.toLower

/-- The literal case-insensitive substring reading of the leader test.
This is the *specification-side* definition, following the spec's words
(`a case-insensitive substring test against the leader-names field`);
the code-side semantics is `strContainsRe` below, and the two are
compared on metacharacter-free patterns. -/
def strContainsCI (s pat : String) : Bool :=
  charsSubOf (lowerChars pat.data) (lowerChars s.data)

/-- The characters that Python `re` treats specially.  A pattern free of
them is matched literally by `re.search`. -/
def isRegexMetaChar (c : Char) : Bool :=
  c == '.' || c == '^' || c == '$' || c == '*' || c == '+' || c == '?' ||
    c == '\x7b' || c == '\x7d' || c == '[' || c == ']' || c == '\\' || c == '|' ||
    c == '(' || c == ')'

/-- Whether a pattern string is free of `re` metacharacters (so that
regex search and literal substring search agree on it). -/
def noRegexMeta (s : String) : Bool := s.data.all (fun c => !(isRegexMetaChar c))

/-- One pattern-character step of `re.search`: the wildcard `'.'`
matches every character except a newline, any other pattern character
only itself. -/
def reCharMatches (p c : Char) : Bool :=
  (p == '.' && !(c == '\n')) || p == c

/-- Whether the pattern matches at the start of the text, for the
embedded regex fragment. -/
def reFragStartWith : List Char → List Char → Bool
  | [], _ => true
  | _ :: _, [] => false
  | p :: ps, c :: cs => reCharMatches p c && reFragStartWith ps cs

/-- `re.search` for the embedded fragment: the pattern matches at some
position of the text. -/
def reFragSearch : List Char → List Char → Bool
  | p, [] => p.isEmpty
  | p, c :: cs => reFragStartWith p (c :: cs) || reFragSearch p cs

/-- `Series.str.contains(pat, case=False)` entry semantics: pandas
treats `pat` as a regular expression (`regex=True` default) and runs
`re.search` with `re.IGNORECASE`.  Embedded here for the regex fragment
of literal characters plus the `'.'` wildcard; patterns using other
regex constructs (quantifiers, classes, groups, escapes — including
invalid patterns, on which the program raises `re.error`) are outside
the embedding, and every theorem touching leader matching either fixes
a pattern inside the fragment or assumes `noRegexMeta`. -/
def strContainsRe (s pat : String) : Bool :=
  reFragSearch (lowerChars pat.data) (lowerChars s.data)

/-- Mask entry of `Series.isin(vals)`: NaN is never a member. -/
def isinMask (vals : List String) (v : Option String) : Bool :=
  match v with
  | none => false
  | some s => vals.contains s

/-- Mask entry of `Series.str.contains(search, case=False, na=False)`:
NaN yields `False` (`na=False`), otherwise the case-insensitive regex
search of the pattern in the value. -/
def leaderMask (search : String) (v : Option String) : Bool :=
  match v with
  | none => false
  | some s => strContainsRe s search

/-- The specification-side leader constraint: NaN never matches, and a
value matches when the pattern is a case-insensitive *literal
substring* of it. -/
def leaderSubstringMask (search : String) (v : Option String) : Bool :=
  match v with
  | none => false
  | some s => strContainsCI s search

/-- The filter pipeline of `app.py` `main` (lines 78-86): start from
`exped.copy()` and apply each mask selection only when its widget value
is truthy (a non-empty list / non-empty string). -/
def applyExpedFilters (exped : DataFrame) (spec : FilterSpec) : DataFrame :=
  let t1 := if spec.years.isEmpty then exped
            else applyMask exped ((exped.col "year").map (isinMask spec.years))
  let t2 := if spec.nations.isEmpty then t1
            else applyMask t1 ((t1.col "nation").map (isinMask spec.nations))
  if spec.leader.isEmpty then t2
  else applyMask t2 ((t2.col "leaders").map (leaderMask spec.leader))

/-! ## Relational Lookup in `app.py` (details section of `main`) -/

/-- Column projection `df[cs]` in the order of `cs`. -/
def selectCols (df : DataFrame) (cs : List String) : DataFrame :=
  { cols := cs, rows := df.rows.map (fun r => cs.map (fun c => (c, getCell r c))) }

/-- Mask entry of `Series == value` on a string series: NaN compares
unequal to every string. -/
def eqMask (key : String) (v : Option String) : Bool :=
  v == some key

/-- `app.py` line 136:
`members[members['expid'] == exp_id][SCHEMA['members'][1:]]` — the join
key is compared by raw string equality, with no normalization. -/
def app_member_data (members : DataFrame) (exp_id : String) : DataFrame :=
  selectCols (applyMask members ((members.col "expid").map (eqMask exp_id)))
    (SCHEMA_members.drop 1)

/-- `app.py` line 147: `peaks[peaks['peakid'] == selected_exp['peakid']]`. -/
def app_peak_data (peaks : DataFrame) (peakid : String) : DataFrame :=
  applyMask peaks ((peaks.col "peakid").map (eqMask peakid))

/-- `app.py` line 162:
`refer[refer['expid'] == exp_id][SCHEMA['refer'][1:]]`. -/
def app_ref_data (refer : DataFrame) (exp_id : String) : DataFrame :=
  selectCols (applyMask refer ((refer.col "expid").map (eqMask exp_id)))
    (SCHEMA_refer.drop 1)

/-! ## The `ideal.py` variant -/

/-- `safe_get_columns(df, possible_columns, fillna)` of `ideal.py`:
keep only the columns of `possible_columns` that the frame actually has,
optionally filling NaN. -/
def safe_get_columns (df : DataFrame) (possible_columns : List String) (fill : Bool) :
    DataFrame :=
  let available := possible_columns.filter (fun c => df.cols.contains c)
  let result := selectCols df available
  if fill then fillnaDf result else result

/-- `pd.DataFrame()`: no columns, no rows. -/
def emptyDf : DataFrame := { cols := [], rows := [] }

/-- `load_data` of `ideal.py`: the four reads happen inside one `try`;
the first read that raises sends control to the `except` branch, which
emits one `st.error` and returns four `pd.DataFrame()`.  On success each
frame is narrowed by `safe_get_columns(..., False)` (no NaN filling). -/
def load_data_ideal (rExped rMembers rPeaks rRefer : Except String DataFrame) :
    (DataFrame × DataFrame × DataFrame × DataFrame) × List String :=
  match rExped with
  | .error e => ((emptyDf, emptyDf, emptyDf, emptyDf), ["Data loading error: " ++ e])
  | .ok exped =>
  match rMembers with
  | .error e => ((emptyDf, emptyDf, emptyDf, emptyDf), ["Data loading error: " ++ e])
  | .ok members =>
  match rPeaks with
  | .error e => ((emptyDf, emptyDf, emptyDf, emptyDf), ["Data loading error: " ++ e])
  | .ok peaks =>
  match rRefer with
  | .error e => ((emptyDf, emptyDf, emptyDf, emptyDf), ["Data loading error: " ++ e])
  | .ok refer =>
      ((safe_get_columns exped ["expid", "year", "nation", "leaders", "peakid"] false,
        safe_get_columns members
          ["expid", "name", "citizenship", "sex", "age", "role", "status"] false,
        safe_get_columns peaks
          ["peakid", "pkname", "heightm", "firstascent", "climbingstatus"] false,
        safe_get_columns refer ["expid", "reference"] false), [])

/-- `df.empty` in pandas: true when either axis has length zero. -/
def DataFrame.isEmptyDf (df : DataFrame) : Bool :=
  df.rows.isEmpty || df.cols.isEmpty

/-- Outcome of the data-integrity check at the top of `ideal.py` `main`
(lines 112-115). -/
inductive IdealMainOutcome
  | critical (msg : String)
  | rendered
deriving Repr, DecidableEq

/-- `ideal.py` `main` lines 112-115: `if exped.empty: st.error(...); return`
— nothing is rendered past a critical error. -/
def ideal_main_check (exped : DataFrame) : IdealMainOutcome :=
  if exped.isEmptyDf then
    .critical "Critical error: No expedition data loaded. Check exped.csv"
  else .rendered

/-! ## Relational Lookup in `ideal.py` (`display_expedition_details`) -/

/-- The whitespace class of Python `str.strip()`. -/
def isSpaceChar (c : Char) : Bool :=
  c == ' ' || c == '\t' || c == '\n' || c == '\r' || c == '\x0b' || c == '\x0c'

/-- Strip leading and trailing whitespace from a character list. -/
def trimChars (cs : List Char) : List Char :=
  ((cs.dropWhile isSpaceChar).reverse.dropWhile isSpaceChar).reverse

/-- The key normalization of `ideal.py`: `.strip().lower()`. -/
def normKey (s : String) : String := ⟨lowerChars (trimChars s.data)⟩

/-- `Series.str.strip().str.lower()`: a NaN entry stays NaN. -/
def seriesNorm (xs : List (Option String)) : List (Option String) :=
  xs.map (Option.map normKey)

/-- `ideal.py` lines 51-53:
`members[members['expid'].str.strip().str.lower() == selected_expid]`
(the `selected_expid` passed in is already normalized). -/
def idealMemberFilter (members : DataFrame) (selected_expid : String) : DataFrame :=
  applyMask members ((seriesNorm (members.col "expid")).map (fun v => v == some selected_expid))

/-- `ideal.py` lines 88-90, the same normalized join on the references
table. -/
def idealReferFilter (refer : DataFrame) (selected_expid : String) : DataFrame :=
  applyMask refer ((seriesNorm (refer.col "expid")).map (fun v => v == some selected_expid))

/-- The peak portion of the detail view: `ideal.py` skips the section
when the expedition row is missing, and shows a "No peak details found"
marker when the peak row is missing. -/
inductive PeakSection
  | skipped
  | notAvailable
  | available (row : Row)
deriving Repr, DecidableEq

/-- The detail bundle produced by `display_expedition_details`: the
member rows, the peak section, and the reference rows. -/
structure DetailBundle where
  members : DataFrame
  peak : PeakSection
  refs : DataFrame
deriving Repr, DecidableEq

/-- `ideal.py` lines 70-85: resolve the expedition's `peakid` through the
normalized self-join on `exped`, then the peak row through the
normalized join on `peaks`.  A NaN `peakid` makes `.iloc[0].strip()`
raise `AttributeError`, which the enclosing handler reports. -/
def idealPeakLookup (exped peaks : DataFrame) (selected_expid : String) :
    Except String PeakSection :=
  match ((applyMask exped
      ((seriesNorm (exped.col "expid")).map (fun v => v == some selected_expid))).col
        "peakid").head? with
  | none => .ok .skipped
  | some none => .error "AttributeError"
  | some (some pid) =>
      match (applyMask peaks
          ((seriesNorm (peaks.col "peakid")).map
            (fun v => v == some (normKey pid)))).rows.head? with
      | none => .ok .notAvailable
      | some r => .ok (.available r)

/-- `display_expedition_details(selected, members, peaks, refer, exped)`
of `ideal.py` as a bundle producer: the whole body runs in a `try`, and a
raised exception is caught and reported as
`"Error displaying details: ..."` (the `.error` case) rather than
propagated. -/
def display_expedition_details (key : String) (members peaks refer exped : DataFrame) :
    Except String DetailBundle :=
  match idealPeakLookup exped peaks (normKey key) with
  | .error e => .error ("Error displaying details: " ++ e)
  | .ok ps =>
      .ok { members := idealMemberFilter members (normKey key),
            peak := ps,
            refs := idealReferFilter refer (normKey key) }

/-! ## Concrete fixtures used by counterexamples and witnesses -/

/-- An expedition table whose single row has a sentinel leaders field. -/
def sentinelExped : DataFrame :=
  { cols := SCHEMA_exped,
    rows := [[("expid", some "e1"), ("peakid", some "p1"), ("year", some "2005"),
              ("leaders", some "N/A"), ("nation", some "USA"), ("host", some "N/A"),
              ("sponsor", some "N/A"), ("highpoint", some "N/A"), ("hdeaths", some "N/A")]] }

/-- An expedition table whose single row has an ordinary leader name
with no literal dot in it. -/
def annExped : DataFrame :=
  { cols := SCHEMA_exped,
    rows := [[("expid", some "e2"), ("peakid", some "p1"), ("year", some "2005"),
              ("leaders", some "Ann Lee"), ("nation", some "USA"), ("host", some "N/A"),
              ("sponsor", some "N/A"), ("highpoint", some "N/A"), ("hdeaths", some "N/A")]] }

/-- The spec scenario's expedition table: years and leader names only. -/
def scenarioExped : DataFrame :=
  { cols := ["year", "leaders"],
    rows := [[("year", some "2005"), ("leaders", some "John Smith")],
             [("year", some "2005"), ("leaders", some "Ann Lee")],
             [("year", some "2010"), ("leaders", some "Sam Smith")]] }

/-- A members table whose three rows are stored under the lower-case key
`"k1"`. -/
def membersLower : DataFrame :=
  { cols := SCHEMA_members,
    rows := [[("expid", some "k1"), ("fname", some "Ann"), ("lname", some "Lee"),
              ("status", some "climber"), ("death", some "N/A"), ("deathtype", some "N/A")],
             [("expid", some "k1"), ("fname", some "Bo"), ("lname", some "Kim"),
              ("status", some "climber"), ("death", some "N/A"), ("deathtype", some "N/A")],
             [("expid", some "k1"), ("fname", some "Cy"), ("lname", some "Roy"),
              ("status", some "leader"), ("death", some "N/A"), ("deathtype", some "N/A")]] }

/-- A source whose parsed frame has the column `"foo"`, which no entity
schema declares, next to one declared column. -/
def srcExtra : CsvSource :=
  { readUtf8 := .ok { cols := ["expid", "foo"],
                      rows := [[("expid", some "e1"), ("foo", none)]] },
    readLatin1 := .otherError "unused" }

/-- A source whose file is absent: both reads raise `FileNotFoundError`. -/
def srcMissing : CsvSource :=
  { readUtf8 := .otherError "FileNotFoundError",
    readLatin1 := .otherError "FileNotFoundError" }

/-- A source readable only as Latin-1: the UTF-8 read raises
`UnicodeDecodeError`. -/
def srcLatinOnly : CsvSource :=
  { readUtf8 := .decodeError,
    readLatin1 := .ok { cols := ["expid"], rows := [[("expid", some "e9")]] } }

/-- An expedition table that knows only the key `"e1"`. -/
def expedOnlyE1 : DataFrame :=
  { cols := ["expid", "year", "nation", "leaders", "peakid"],
    rows := [[("expid", some "e1"), ("year", some "2005"), ("nation", some "USA"),
              ("leaders", some "Ann Lee"), ("peakid", some "p1")]] }

/-- A members table holding one orphan row under the key `"x1"`, which
`expedOnlyE1` does not contain. -/
def membersOrphan : DataFrame :=
  { cols := ["expid", "name", "citizenship", "sex", "age", "role", "status"],
    rows := [[("expid", some "x1"), ("name", some "Zed"), ("citizenship", some "IT"),
              ("sex", some "M"), ("age", some "40"), ("role", some "climber"),
              ("status", some "ok")]] }

/-- A peaks table holding only the peak `"p9"`. -/
def peaksOnlyP9 : DataFrame :=
  { cols := ["peakid", "pkname", "heightm", "firstascent", "climbingstatus"],
    rows := [[("peakid", some "p9"), ("pkname", some "Nine"), ("heightm", some "8000"),
              ("firstascent", some "N/A"), ("climbingstatus", some "N/A")]] }

/-- An empty references table with the `ideal.py` reference columns. -/
def referNone : DataFrame :=
  { cols := ["expid", "reference"], rows := [] }

/-! ## General lemmas about the embedded operations -/

/-- A guarded mask selection is a row filter whose predicate is vacuous
when the guard disables it. -/
theorem guarded_mask_filter (df : DataFrame) (c : String) (g : Option String → Bool) (b : Bool) :
    (if b then df else applyMask df ((df.col c).map g)) =
      filterRows df (fun r => b || g (getCell r c)) := by
  cases b
  · simpa using applyMask_col df c g
  · simp only [if_pos, Bool.true_or]
    show df = filterRows df (fun _ => true)
    simp [filterRows, List.filter_true]

/-- Two stacked row filters are one conjunctive row filter. -/
theorem filterRows_filterRows (df : DataFrame) (p q : Row → Bool) :
    filterRows (filterRows df p) q = filterRows df (fun r => q r && p r) := by
  simp [filterRows, List.filter_filter]

/-- The filter pipeline of `app.py` `main` is one conjunctive,
order-preserving row filter. -/
theorem applyExpedFilters_eq_filterRows (exped : DataFrame) (spec : FilterSpec) :
    applyExpedFilters exped spec =
      filterRows exped (fun r =>
        (spec.years.isEmpty || isinMask spec.years (getCell r "year")) &&
        (spec.nations.isEmpty || isinMask spec.nations (getCell r "nation")) &&
        (spec.leader.isEmpty || leaderMask spec.leader (getCell r "leaders"))) := by
  simp only [applyExpedFilters]
  rw [guarded_mask_filter, guarded_mask_filter, guarded_mask_filter,
    filterRows_filterRows, filterRows_filterRows]
  unfold filterRows
  congr 1
  apply List.filter_congr
  intro r _
  cases spec.years.isEmpty || isinMask spec.years (getCell r "year") <;>
    cases spec.nations.isEmpty || isinMask spec.nations (getCell r "nation") <;>
    cases spec.leader.isEmpty || leaderMask spec.leader (getCell r "leaders") <;> rfl

/-- A normalized-key mask selection is the row filter comparing the
normalized stored key with the (already normalized) query key. -/
theorem norm_mask_filter (df : DataFrame) (c : String) (k : String) :
    applyMask df ((seriesNorm (df.col c)).map (fun v => v == some k)) =
      filterRows df (fun r => Option.map normKey (getCell r c) == some k) := by
  unfold seriesNorm
  rw [List.map_map]
  exact applyMask_col df c _

/-- A lookup misses when the key is not among the pair keys. -/
theorem lookup_eq_none_of_not_key (c : String) (l : List (String × Option String))
    (h : ¬ c ∈ l.map Prod.fst) : l.lookup c = none := by
  induction l with
  | nil => rfl
  | cons p t ih =>
      obtain ⟨k, v⟩ := p
      simp only [List.map_cons, List.mem_cons, not_or] at h
      simp only [List.lookup, beq_false_of_ne h.1]
      exact ih h.2

/-- Lookup in a constant-valued synthesized column. -/
theorem lookup_map_const (c : String) (l : List String) (v : Option String) :
    (l.map (fun c2 => (c2, v))).lookup c = if c ∈ l then some v else none := by
  induction l with
  | nil => rfl
  | cons a t ih =>
      simp only [List.map_cons, List.lookup]
      by_cases h : c = a
      · subst h
        simp
      · rw [beq_false_of_ne h]
        simp [h, ih]

/-- Lookup distributes over list append, preferring the left list. -/
theorem lookup_append (c : String) (l₁ l₂ : List (String × Option String)) :
    (l₁ ++ l₂).lookup c =
      (match l₁.lookup c with
       | some v => some v
       | none => l₂.lookup c) := by
  induction l₁ with
  | nil => rfl
  | cons p t ih =>
      obtain ⟨k, v⟩ := p
      simp only [List.cons_append, List.lookup]
      cases h : (c == k) <;> simp [ih]

/-- Lookup commutes with the sentinel fill of the cell values. -/
theorem lookup_fill (c : String) (l : List (String × Option String)) :
    (l.map (fun p => (p.1, some (p.2.getD "N/A")))).lookup c =
      (l.lookup c).map (fun v => some (v.getD "N/A")) := by
  induction l with
  | nil => rfl
  | cons p t ih =>
      obtain ⟨k, v⟩ := p
      simp only [List.map_cons, List.lookup]
      cases h : (c == k) <;> simp [ih]

/-- The empty pattern occurs in every character list. -/
theorem charsSubOf_nil_left (l : List Char) : charsSubOf [] l = true := by
  cases l <;> simp [charsSubOf, charsStartWith, List.isEmpty]

/-- A character list starts every list it prefixes. -/
theorem charsStartWith_append (l t : List Char) : charsStartWith l (l ++ t) = true := by
  induction l with
  | nil => rfl
  | cons a as ih => simp [charsStartWith, ih]

/-- A contiguous occurrence is found wherever the pattern sits. -/
theorem charsSubOf_of_append (p pre suf : List Char) :
    charsSubOf p (pre ++ p ++ suf) = true := by
  induction pre with
  | nil =>
      cases hp : p with
      | nil => simpa [hp] using charsSubOf_nil_left suf
      | cons a as =>
          simp only [List.nil_append]
          rw [List.cons_append]
          simp [charsSubOf, ← List.cons_append, ← hp, charsStartWith_append]
  | cons b bs ih =>
      simp only [List.cons_append, charsSubOf, List.append_eq]
      rw [ih]
      simp

/-- Lower-casing never turns a non-dot character into the dot. -/
theorem toLower_ne_dot (c : Char) (h : ¬ c = '.') : ¬ Char.toLower c = '.' := by
  unfold Char.toLower
  by_cases hc : c.toNat ≥ 65 ∧ c.toNat ≤ 90
  · rw [if_pos hc]
    obtain ⟨h1, h2⟩ := hc
    interval_cases hn : c.toNat <;> decide
  · rw [if_neg hc]
    exact h

/-- On dot-free patterns, anchored fragment matching is literal prefix
matching. -/
theorem reFragStartWith_no_dot (p : List Char) (hp : p.all (fun c => !(c == '.')) = true) :
    ∀ l : List Char, reFragStartWith p l = charsStartWith p l := by
  induction p with
  | nil => intro l; cases l <;> rfl
  | cons a as ih =>
      intro l
      simp only [List.all_cons, Bool.and_eq_true] at hp
      have ha : (a == '.') = false := by simpa using hp.1
      cases l with
      | nil => rfl
      | cons b bs =>
          simp only [reFragStartWith, charsStartWith, reCharMatches, ha, Bool.false_and,
            Bool.false_or]
          rw [ih hp.2]

/-- On dot-free patterns, fragment regex search is literal substring
search. -/
theorem reFragSearch_no_dot (p : List Char) (hp : p.all (fun c => !(c == '.')) = true)
    (l : List Char) : reFragSearch p l = charsSubOf p l := by
  induction l with
  | nil => rfl
  | cons b bs ih =>
      simp only [reFragSearch, charsSubOf, reFragStartWith_no_dot p hp, ih]

/-- Lower-casing a metacharacter-free pattern yields dot-free
characters. -/
theorem lowerChars_no_dot (s : String) (h : noRegexMeta s = true) :
    (lowerChars s.data).all (fun c => !(c == '.')) = true := by
  unfold noRegexMeta at h
  rw [List.all_eq_true] at h ⊢
  intro c hc
  unfold lowerChars at hc
  rw [List.mem_map] at hc
  obtain ⟨c0, hc0, rfl⟩ := hc
  have hmeta := h c0 hc0
  have h0 : ¬ c0 = '.' := by
    intro he
    subst he
    simp [isRegexMetaChar] at hmeta
  simpa using toLower_ne_dot c0 h0

/-- On metacharacter-free patterns the code's regex search coincides
with the spec's literal substring test. -/
theorem strContainsRe_eq_ci (s pat : String) (h : noRegexMeta pat = true) :
    strContainsRe s pat = strContainsCI s pat := by
  unfold strContainsRe strContainsCI
  exact reFragSearch_no_dot _ (lowerChars_no_dot pat h) _

/-- On metacharacter-free patterns the leader mask is the substring
mask. -/
theorem leaderMask_eq_substringMask (search : String) (h : noRegexMeta search = true) :
    leaderMask search = leaderSubstringMask search := by
  funext v
  cases v with
  | none => rfl
  | some s => exact strContainsRe_eq_ci s search h

/-! ## The claims -/

/-- C9: `filter` applied with an all-empty spec (empty year set, empty
nation set, empty leader substring) is the identity on the expedition
table: every guard is falsy, so `app.py` lines 79-86 never select, and
the result is `exped.copy()` row for row. -/
theorem filter_all_empty_spec_identity (exped : DataFrame) :
    applyExpedFilters exped { years := [], nations := [], leader := "" } = exped := rfl

/-- C8 counterexample: pandas treats the leader filter as a regular
expression (`regex=True` default), so the pattern `"."` keeps a row
whose leader is `"Ann Lee"` although `"."` is not a case-insensitive
literal substring of it — the claimed substring semantics would exclude
the row. -/
theorem regex_dot_leader_filter_cex :
    (applyExpedFilters annExped { years := [], nations := [], leader := "." }).rows =
        annExped.rows ∧
      charsSubOf (lowerChars (".").data) (lowerChars ("Ann Lee").data) = false := by
  constructor
  · decide
  · decide

/-- C8 amended: for every filter spec whose leader filter contains no
regex metacharacter, the pipeline keeps exactly the rows satisfying the
conjunction of the active constraints — year in the year set when that
set is non-empty, nation in the nation set when that set is non-empty,
and the case-insensitive *literal substring* leader test (NaN never
matching) when the search string is non-empty — as an order-preserving
filter of the input table.  For leader filters with regex
metacharacters the program instead runs a regex search (the
counterexample: `"."` matches every non-NaN leader), and an invalid
pattern raises in the program. -/
theorem filter_is_conjunction_for_literal_leader (exped : DataFrame) (spec : FilterSpec)
    (hlit : noRegexMeta spec.leader = true) :
    applyExpedFilters exped spec =
      filterRows exped (fun r =>
        (spec.years.isEmpty || isinMask spec.years (getCell r "year")) &&
        (spec.nations.isEmpty || isinMask spec.nations (getCell r "nation")) &&
        (spec.leader.isEmpty || leaderSubstringMask spec.leader (getCell r "leaders"))) := by
  rw [applyExpedFilters_eq_filterRows, leaderMask_eq_substringMask spec.leader hlit]

/-- C8 witness: the spec's scenario — years `{"2005"}`, no nations,
leader filter `"sm"` (metacharacter-free) — keeps exactly the
`John Smith` row, in input order. -/
theorem filter_is_conjunction_for_literal_leader_witness :
    (applyExpedFilters scenarioExped { years := ["2005"], nations := [], leader := "sm" } =
        filterRows scenarioExped (fun r =>
          ((["2005"] : List String).isEmpty || isinMask ["2005"] (getCell r "year")) &&
          (([] : List String).isEmpty || isinMask [] (getCell r "nation")) &&
          (("sm" : String).isEmpty || leaderSubstringMask "sm" (getCell r "leaders")))) ∧
      (applyExpedFilters scenarioExped
          { years := ["2005"], nations := [], leader := "sm" }).rows =
        [[("year", some "2005"), ("leaders", some "John Smith")]] :=
  ⟨filter_is_conjunction_for_literal_leader scenarioExped
      { years := ["2005"], nations := [], leader := "sm" } (by decide),
   by decide⟩

/-- C4 counterexample: after `load_data` has replaced a missing leader
by the sentinel *string* `"N/A"`, the case-insensitive filter `"n"`
does match it (`"n"` is a substring of `"n/a"`), so the sentinel row
survives the filter instead of never matching. -/
theorem sentinel_leader_matches_filter_cex :
    applyExpedFilters sentinelExped { years := [], nations := [], leader := "n" } =
        sentinelExped ∧
      sentinelExped.col "leaders" = [some "N/A"] := by
  constructor
  · decide
  · rfl

/-- C4 amended: with a non-empty leader search, no surviving row has a
NaN leaders field (`na=False` makes NaN never match); but a leaders
field holding the sentinel string `"N/A"` — which is what `load_data`
turns NaN into — can still match searches such as `"n"`, as the
counterexample shows. -/
theorem nan_leader_never_matches (exped : DataFrame) (spec : FilterSpec) (r : Row)
    (hmem : r ∈ (applyExpedFilters exped spec).rows) (hl : ¬ spec.leader.isEmpty = true) :
    ¬ getCell r "leaders" = none := by
  intro hnone
  rw [applyExpedFilters_eq_filterRows] at hmem
  simp only [filterRows, List.mem_filter] at hmem
  have h3 := hmem.2
  simp only [Bool.and_eq_true, Bool.or_eq_true] at h3
  rcases h3.2 with hempty | hmatch
  · exact hl hempty
  · rw [hnone] at hmatch
    simp [leaderMask] at hmatch

/-- C4 witness: in the one-row sentinel table filtered by `"n"`, the
surviving row's leaders field is not the native NaN. -/
theorem nan_leader_never_matches_witness :
    ¬ getCell [("expid", some "e1"), ("peakid", some "p1"), ("year", some "2005"),
        ("leaders", some "N/A"), ("nation", some "USA"), ("host", some "N/A"),
        ("sponsor", some "N/A"), ("highpoint", some "N/A"), ("hdeaths", some "N/A")]
      "leaders" = none :=
  nan_leader_never_matches sentinelExped { years := [], nations := [], leader := "n" } _
    (by decide) (by decide)

/-- C3 counterexample: `app.py` joins members on raw string equality, so
for a members table whose three rows are stored under `"k1"` the lookup
with the key `"K1"` returns no rows, though the claim requires all
three to be found. -/
theorem app_join_misses_case_differing_key_cex :
    (app_member_data membersLower "K1").rows = [] ∧
      membersLower.col "expid" = [some "k1", some "k1", some "k1"] := by
  constructor
  · decide
  · rfl

/-- C3 amended: in the `ideal.py` variant the query key and the stored
keys are both normalized by trim and case-fold before comparison, so the
member and reference sub-collections of a successful detail bundle are
exactly the stored rows whose normalized expedition key equals the
normalized query key; in `app.py` the member, peak, and reference joins
instead use raw string equality, so keys differing only in case or
whitespace do not join there (the counterexample). -/
theorem ideal_detail_joins_on_normalized_keys (key : String)
    (members peaks refer exped : DataFrame) (b : DetailBundle)
    (h : display_expedition_details key members peaks refer exped = .ok b) :
    b.members =
        filterRows members
          (fun r => Option.map normKey (getCell r "expid") == some (normKey key)) ∧
      b.refs =
        filterRows refer
          (fun r => Option.map normKey (getCell r "expid") == some (normKey key)) := by
  unfold display_expedition_details at h
  cases hpl : idealPeakLookup exped peaks (normKey key) with
  | error e => rw [hpl] at h; exact absurd h (by simp)
  | ok ps =>
      rw [hpl] at h
      simp only [Except.ok.injEq] at h
      subst h
      exact ⟨norm_mask_filter members "expid" (normKey key),
        norm_mask_filter refer "expid" (normKey key)⟩

/-- C3 witness: `detail("K1")` on tables stored under `"k1"` returns
exactly the three stored member rows (the spec's scenario). -/
theorem ideal_detail_joins_on_normalized_keys_witness :
    (DetailBundle.mk
        { cols := SCHEMA_members, rows := membersLower.rows }
        PeakSection.skipped
        { cols := ["expid", "reference"], rows := [] }).members =
        filterRows membersLower
          (fun r => Option.map normKey (getCell r "expid") == some (normKey "K1")) ∧
      (DetailBundle.mk
        { cols := SCHEMA_members, rows := membersLower.rows }
        PeakSection.skipped
        { cols := ["expid", "reference"], rows := [] }).refs =
        filterRows referNone
          (fun r => Option.map normKey (getCell r "expid") == some (normKey "K1")) :=
  ideal_detail_joins_on_normalized_keys "K1" membersLower peaksOnlyP9 referNone expedOnlyE1
    _ (by rfl)

/-- C7 counterexample: for the key `"x1"`, absent from the expedition
table but present on one orphan member row, `detail` returns that member
row — the member sub-collection of the bundle is not empty, and no
`found=false` flag exists; only the peak section reflects the missing
expedition row (it is skipped). -/
theorem detail_absent_key_nonempty_members_cex :
    expedOnlyE1.col "expid" = [some "e1"] ∧
      normKey "x1" = "x1" ∧
      membersOrphan.rows.length = 1 ∧
      display_expedition_details "x1" membersOrphan peaksOnlyP9 referNone expedOnlyE1 =
        .ok { members := membersOrphan,
              peak := .skipped,
              refs := { cols := referNone.cols, rows := [] } } :=
  ⟨rfl, by decide, rfl, by rfl⟩

/-- C7 amended: `detail` never raises past its boundary on missing
related data.  For a key whose normalized form matches no stored
expedition, member, or reference key, the bundle has empty member and
reference sub-collections and the peak section is skipped (the code has
no `found` flag; member or reference rows that do match the key are
returned even when the expedition row is absent, as the counterexample
shows).  For a key that resolves to an expedition whose peak key matches
no peak row, the bundle carries the explicit not-available peak marker. -/
theorem detail_degrades_never_raises (key : String) (members peaks refer exped : DataFrame) :
    ((∀ v ∈ exped.col "expid", ¬ Option.map normKey v = some (normKey key)) →
     (∀ v ∈ members.col "expid", ¬ Option.map normKey v = some (normKey key)) →
     (∀ v ∈ refer.col "expid", ¬ Option.map normKey v = some (normKey key)) →
      display_expedition_details key members peaks refer exped =
        .ok { members := { cols := members.cols, rows := [] },
              peak := .skipped,
              refs := { cols := refer.cols, rows := [] } }) ∧
    (∀ p, ((filterRows exped
          (fun r => Option.map normKey (getCell r "expid") == some (normKey key))).col
            "peakid").head? = some (some p) →
      (∀ v ∈ peaks.col "peakid", ¬ Option.map normKey v = some (normKey p)) →
      display_expedition_details key members peaks refer exped =
        .ok { members := idealMemberFilter members (normKey key),
              peak := .notAvailable,
              refs := idealReferFilter refer (normKey key) }) := by
  have hfilter : ∀ (df : DataFrame) (c k : String),
      (∀ v ∈ df.col c, ¬ Option.map normKey v = some k) →
      df.rows.filter (fun r => Option.map normKey (getCell r c) == some k) = [] := by
    intro df c k hall
    rw [List.filter_eq_nil_iff]
    intro r hr
    have := hall (getCell r c) (List.mem_map_of_mem _ hr)
    simpa using this
  have hrows : ∀ (df : DataFrame) (p : Row → Bool),
      (filterRows df p).rows = df.rows.filter p := fun _ _ => rfl
  have hcol : ∀ (df : DataFrame) (p : Row → Bool) (c : String),
      (filterRows df p).col c = (df.rows.filter p).map (fun r => getCell r c) :=
    fun _ _ _ => rfl
  constructor
  · intro hexped hmembers hrefer
    unfold display_expedition_details idealPeakLookup
    rw [norm_mask_filter, hcol, hfilter exped "expid" (normKey key) hexped]
    simp only [List.map_nil, List.head?_nil]
    unfold idealMemberFilter idealReferFilter
    rw [norm_mask_filter, norm_mask_filter]
    unfold filterRows
    rw [hfilter members "expid" (normKey key) hmembers,
      hfilter refer "expid" (normKey key) hrefer]
  · intro p hpeek hpeaks
    have hpkrows : (applyMask peaks
        ((seriesNorm (peaks.col "peakid")).map (fun v => v == some (normKey p)))).rows = [] := by
      rw [norm_mask_filter, hrows, hfilter peaks "peakid" (normKey p) hpeaks]
    unfold display_expedition_details idealPeakLookup
    rw [norm_mask_filter, hpeek]
    simp only [hpkrows, List.head?_nil]

/-- C7 witness: at the concrete tables, the all-absent key `"zz"` yields
the empty-sections bundle, and the key `" E1 "` (whose expedition's peak
key `"p1"` matches no peak row) yields the not-available peak marker. -/
theorem detail_degrades_never_raises_witness :
    (display_expedition_details "zz" membersOrphan peaksOnlyP9 referNone expedOnlyE1 =
      .ok { members := { cols := membersOrphan.cols, rows := [] },
            peak := .skipped,
            refs := { cols := referNone.cols, rows := [] } }) ∧
    (display_expedition_details " E1 " membersOrphan peaksOnlyP9 referNone expedOnlyE1 =
      .ok { members := idealMemberFilter membersOrphan (normKey " E1 "),
            peak := .notAvailable,
            refs := idealReferFilter referNone (normKey " E1 ") }) :=
  ⟨(detail_degrades_never_raises "zz" membersOrphan peaksOnlyP9 referNone expedOnlyE1).1
      (by decide) (by decide) (by decide),
   (detail_degrades_never_raises " E1 " membersOrphan peaksOnlyP9 referNone expedOnlyE1).2
      "p1" (by rfl) (by decide)⟩

/-- C1 counterexample: a source with the undeclared column `"foo"`
passes through `load_data`, whose completion loop only *adds* missing
schema columns and never drops extras — the output column set is not
exactly the canonical one. -/
theorem load_keeps_extra_column_cex :
    "foo" ∈ (load_data_one "exped" SCHEMA_exped srcExtra).1.cols ∧
      ¬ "foo" ∈ SCHEMA_exped := by
  constructor
  · decide
  · decide

/-- C1 amended: on a successful read (rows keyed by the source columns),
`load_data` output contains every canonical column — those absent from
the source synthesized in every row with the sentinel `"N/A"` — but the
output column set is only a superset of the canonical one: source
columns outside the schema are retained, so `exactly the canonical
column set` fails (the counterexample); every output column comes from
the schema or from the source. -/
theorem load_completes_schema_but_keeps_extra_cols (name : String) (schema : List String)
    (src : CsvSource) (df : DataFrame)
    (hread : tryReadWithFallback src = .ok df)
    (hwf : ∀ r ∈ df.rows, r.map Prod.fst = df.cols) :
    (∀ c ∈ schema, c ∈ (load_data_one name schema src).1.cols) ∧
      (∀ c ∈ (load_data_one name schema src).1.cols, c ∈ schema ∨ c ∈ df.cols) ∧
      (∀ r ∈ (load_data_one name schema src).1.rows, ∀ c ∈ schema, ¬ c ∈ df.cols →
        getCell r c = some "N/A") := by
  have hout : (load_data_one name schema src).1 = fillnaDf (addMissingCols schema df) := by
    unfold load_data_one
    rw [hread]
  rw [hout]
  have hcols : (fillnaDf (addMissingCols schema df)).cols =
      df.cols ++ schema.filter (fun c => !(df.cols.contains c)) := rfl
  refine ⟨?_, ?_, ?_⟩
  · intro c hc
    rw [hcols, List.mem_append]
    by_cases hdf : c ∈ df.cols
    · exact Or.inl hdf
    · refine Or.inr ?_
      rw [List.mem_filter]
      exact ⟨hc, by simpa using hdf⟩
  · intro c hc
    rw [hcols, List.mem_append] at hc
    rcases hc with hdf | hmf
    · exact Or.inr hdf
    · exact Or.inl (List.mem_filter.mp hmf).1
  · intro r hr c hc hdf
    simp only [fillnaDf, addMissingCols, List.map_map, List.mem_map] at hr
    obtain ⟨r0, hr0, hr0eq⟩ := hr
    subst hr0eq
    have hkeys : List.lookup c r0 = none :=
      lookup_eq_none_of_not_key c r0 (by rw [hwf r0 hr0]; exact hdf)
    have hmem : c ∈ schema.filter (fun c => !(df.cols.contains c)) := by
      rw [List.mem_filter]
      exact ⟨hc, by simpa using hdf⟩
    simp only [Function.comp]
    unfold getCell
    rw [List.map_append, lookup_append, lookup_fill, lookup_fill, hkeys,
      lookup_map_const, if_pos hmem]
    rfl

/-- C1 witness: at the `"foo"` source, every canonical expedition column
is present, all extras come from the source, and the synthesized
`"year"` column carries the sentinel. -/
theorem load_completes_schema_witness :
    (∀ c ∈ SCHEMA_exped, c ∈ (load_data_one "exped" SCHEMA_exped srcExtra).1.cols) ∧
      (∀ c ∈ (load_data_one "exped" SCHEMA_exped srcExtra).1.cols,
        c ∈ SCHEMA_exped ∨ c ∈ ["expid", "foo"]) ∧
      (∀ r ∈ (load_data_one "exped" SCHEMA_exped srcExtra).1.rows,
        ∀ c ∈ SCHEMA_exped, ¬ c ∈ ["expid", "foo"] → getCell r c = some "N/A") :=
  load_completes_schema_but_keeps_extra_cols "exped" SCHEMA_exped srcExtra
    { cols := ["expid", "foo"], rows := [[("expid", some "e1"), ("foo", none)]] }
    (by rfl) (by decide)

/-- C2: after `load_data` completes, no cell of the table is the native
absence value — the completion loop writes the sentinel, `fillna('N/A')`
replaces every remaining NaN, and the failure branch has no rows at
all. -/
theorem load_leaves_no_nan (name : String) (schema : List String) (src : CsvSource) :
    ∀ r ∈ (load_data_one name schema src).1.rows, ∀ p ∈ r, p.2.isSome = true := by
  intro r hr p hp
  unfold load_data_one at hr
  cases hread : tryReadWithFallback src with
  | error e =>
      rw [hread] at hr
      simp [emptyWithCols] at hr
  | ok df =>
      rw [hread] at hr
      simp only [fillnaDf, addMissingCols, List.map_map, List.mem_map] at hr
      obtain ⟨r0, _, hr0eq⟩ := hr
      subst hr0eq
      simp only [Function.comp, List.mem_map] at hp
      obtain ⟨q, _, hqeq⟩ := hp
      subst hqeq
      rfl

/-- C2 witness: the loaded `"foo"` source's NaN cell has been replaced —
the row's cells are all present, and the `"foo"` cell is the sentinel. -/
theorem load_leaves_no_nan_witness :
    getCell ((load_data_one "exped" SCHEMA_exped srcExtra).1.rows.headD [])
        "foo" = some "N/A" ∧
      (("foo", some "N/A") : String × Option String).2.isSome = true :=
  ⟨by decide,
   load_leaves_no_nan "exped" SCHEMA_exped srcExtra
     ((load_data_one "exped" SCHEMA_exped srcExtra).1.rows.headD []) (by decide)
     ("foo", some "N/A") (by decide)⟩

/-- C5: when every read of the backing source raises something other
than a decode error (missing file, structurally invalid data), the
outer handler of `load_data` substitutes a zero-row table that still
carries the full canonical column set and emits exactly one message,
whose text contains the affected table's name; nothing propagates to
the caller. -/
theorem load_missing_source_schema_complete_warning (name : String) (schema : List String)
    (src : CsvSource) (e : String) (h : tryReadWithFallback src = .error e) :
    (load_data_one name schema src).1.rows = [] ∧
      (load_data_one name schema src).1.cols = schema ∧
      (load_data_one name schema src).2 = ["Error loading " ++ name ++ ": " ++ e] ∧
      charsSubOf name.data ("Error loading " ++ name ++ ": " ++ e).data = true := by
  have hout : load_data_one name schema src =
      (emptyWithCols schema, ["Error loading " ++ name ++ ": " ++ e]) := by
    unfold load_data_one
    rw [h]
  rw [hout]
  refine ⟨rfl, rfl, rfl, ?_⟩
  rw [String.data_append, String.data_append, String.data_append, List.append_assoc]
  exact charsSubOf_of_append name.data ("Error loading ").data ((": ").data ++ e.data)

/-- C5 witness: for the absent `exped` source, the substituted table has
the canonical columns with zero rows and the single warning names
`exped`. -/
theorem load_missing_source_schema_complete_warning_witness :
    (load_data_one "exped" SCHEMA_exped srcMissing).1.rows = [] ∧
      (load_data_one "exped" SCHEMA_exped srcMissing).1.cols = SCHEMA_exped ∧
      (load_data_one "exped" SCHEMA_exped srcMissing).2 =
        ["Error loading " ++ "exped" ++ ": " ++ "FileNotFoundError"] ∧
      charsSubOf ("exped").data
        ("Error loading " ++ "exped" ++ ": " ++ "FileNotFoundError").data = true :=
  load_missing_source_schema_complete_warning "exped" SCHEMA_exped srcMissing
    "FileNotFoundError" (by rfl)

/-- C6: `load_data` reads a source as UTF-8 first — a successful UTF-8
read is used as-is — and only a `UnicodeDecodeError` triggers the single
Latin-1 retry; when that retry parses, the table loads with no error
message surfaced to the caller. -/
theorem load_utf8_then_latin1_fallback (src : CsvSource) (df : DataFrame) :
    (src.readUtf8 = .ok df → tryReadWithFallback src = .ok df) ∧
      (src.readUtf8 = .decodeError → src.readLatin1 = .ok df →
        tryReadWithFallback src = .ok df ∧
          ∀ name schema, (load_data_one name schema src).2 = []) := by
  constructor
  · intro h
    unfold tryReadWithFallback
    rw [h]
  · intro h1 h2
    have hread : tryReadWithFallback src = .ok df := by
      unfold tryReadWithFallback
      rw [h1, h2]
    refine ⟨hread, ?_⟩
    intro name schema
    unfold load_data_one
    rw [hread]

/-- C6 witness: the Latin-1-only source loads through the fallback with
no surfaced error. -/
theorem load_utf8_then_latin1_fallback_witness :
    (srcLatinOnly.readUtf8 = .decodeError) ∧
      tryReadWithFallback srcLatinOnly =
        .ok { cols := ["expid"], rows := [[("expid", some "e9")]] } ∧
      (load_data_one "refer" SCHEMA_refer srcLatinOnly).2 = [] := by
  have h := (load_utf8_then_latin1_fallback srcLatinOnly
    { cols := ["expid"], rows := [[("expid", some "e9")]] }).2 rfl rfl
  exact ⟨rfl, h.1, h.2 "refer" SCHEMA_refer⟩

/-- C10: in the `ideal.py` variant, load failure is all-or-nothing — if
any one of the four reads raises, `load_data` returns four
`pd.DataFrame()` tables with zero rows *and* zero columns (not
schema-complete), even the ones already read successfully being
discarded, after one `"Data loading error"` message; `main` then sees an
empty expedition table, reports the critical error, and renders
nothing. -/
theorem ideal_load_all_or_nothing (r1 r2 r3 r4 : Except String DataFrame)
    (h : (∃ e, r1 = .error e) ∨ (∃ e, r2 = .error e) ∨ (∃ e, r3 = .error e) ∨
      (∃ e, r4 = .error e)) :
    (∃ e, load_data_ideal r1 r2 r3 r4 =
        ((emptyDf, emptyDf, emptyDf, emptyDf), ["Data loading error: " ++ e])) ∧
      ideal_main_check (load_data_ideal r1 r2 r3 r4).1.1 =
        .critical "Critical error: No expedition data loaded. Check exped.csv" := by
  cases r1 with
  | error e => exact ⟨⟨e, rfl⟩, rfl⟩
  | ok d1 =>
    cases r2 with
    | error e => exact ⟨⟨e, rfl⟩, rfl⟩
    | ok d2 =>
      cases r3 with
      | error e => exact ⟨⟨e, rfl⟩, rfl⟩
      | ok d3 =>
        cases r4 with
        | error e => exact ⟨⟨e, rfl⟩, rfl⟩
        | ok d4 =>
          rcases h with ⟨e, he⟩ | ⟨e, he⟩ | ⟨e, he⟩ | ⟨e, he⟩ <;> exact absurd he (by simp)

/-- C10 witness: a members read failure discards the already-read
expedition table and yields four empty frames plus the critical-error
path in `main`. -/
theorem ideal_load_all_or_nothing_witness :
    (∃ e, load_data_ideal (.ok expedOnlyE1) (.error "FileNotFoundError")
        (.ok peaksOnlyP9) (.ok referNone) =
        ((emptyDf, emptyDf, emptyDf, emptyDf), ["Data loading error: " ++ e])) ∧
      ideal_main_check (load_data_ideal (.ok expedOnlyE1) (.error "FileNotFoundError")
          (.ok peaksOnlyP9) (.ok referNone)).1.1 =
        .critical "Critical error: No expedition data loaded. Check exped.csv" :=
  ideal_load_all_or_nothing (.ok expedOnlyE1) (.error "FileNotFoundError")
    (.ok peaksOnlyP9) (.ok referNone) (Or.inr (Or.inl ⟨"FileNotFoundError", rfl⟩))
